import Mathlib

/-!
Verification of the OmniQueue broker-agnostic messaging facade.

Shallow embedding of the core registry (src/packages/core/src/index.ts) and
of the adapter mapping logic of the RabbitMQ, ZeroMQ, NATS JetStream and
BullMQ adapters (src/packages/{rabbitmq,zeromq,nats,bullmq}/src/index.ts).

Stateful JavaScript (the module-level REGISTRY map, per-broker caches,
provisioning state of the backends) is embedded as explicit state passing:
each operation takes the state before the call and returns the state after
the call together with an `Except` outcome (`Except.error` models a thrown
exception).  Backend client libraries (amqplib, zeromq, nats, bullmq) are
out of scope of the repository; where the behaviour of an adapter depends on
them, their documented resource semantics (a named resource exists or not,
a PULL socket only receives from the endpoint its peer PUSH socket bound)
are embedded as the minimal state the adapter code manipulates.
-/

namespace Omniqueue

namespace Core

/-- Comma join (`Array.prototype.join` with separator `, `) as used by
`create` on the list of registered provider keys. -/
def joinComma : List String → String
  | [] => ""
  | [s] => s
  | s :: rest => s ++ ", " ++ joinComma rest

/-- Key membership test `REGISTRY.has(provider)`: the key occurs in the map.
The insertion-ordered JavaScript `Map` is embedded as an association list. -/
def hasProvider {α : Type} (reg : List (String × α)) (p : String) : Bool :=
  (reg.map Prod.fst).contains p

/-- Message of the error thrown by `register` on a duplicate provider key. -/
def duplicateMsg (p : String) : String :=
  "Broker \"" ++ p ++ "\" already registered"

/-- The function `register(provider, factory)` from src/packages/core/src/index.ts:
throws when the provider key is already present, otherwise inserts the
factory.  Returns the registry after the call and the outcome. -/
def registerStep {α : Type} (reg : List (String × α)) (p : String) (f : α) :
    List (String × α) × Except String Unit :=
  if hasProvider reg p then (reg, Except.error (duplicateMsg p))
  else (reg ++ [(p, f)], Except.ok ())

/-- Message of the error thrown by `create` on an unknown provider key:
`Broker "<p>" not registered. Known: [<joined keys or dash>]` (the dash
stands in when the joined key list is empty, mirroring the fallback in the
source). -/
def notRegisteredMsg (p : String) (known : List String) : String :=
  let joined := joinComma known
  "Broker \"" ++ p ++ "\" not registered. Known: [" ++
    (if joined = "" then "–" else joined) ++ "]"

/-- The function `create(provider, cfg)` from src/packages/core/src/index.ts:
`REGISTRY.get(provider)`, throw with the enumerating message when absent,
otherwise hand the configuration to the factory (the factory itself is
backend I/O and is returned abstractly).  Returns the registry after the
call and the outcome. -/
def createStep {α : Type} (reg : List (String × α)) (p : String) :
    List (String × α) × Except String α :=
  match reg.lookup p with
  | some f => (reg, Except.ok f)
  | none => (reg, Except.error (notRegisteredMsg p (reg.map Prod.fst)))

/-- Every member of a list of provider keys occurs verbatim inside their
comma-joined enumeration. -/
theorem joinComma_occurs (n : String) : ∀ l : List String, n ∈ l →
    ∃ pre post, joinComma l = pre ++ n ++ post := by
  intro l
  induction l with
  | nil => intro h; cases h
  | cons s rest ih =>
    intro hmem
    cases rest with
    | nil =>
      rcases List.mem_singleton.mp hmem with rfl
      exact ⟨"", "", by simp [joinComma]⟩
    | cons s2 rest2 =>
      rcases List.mem_cons.mp hmem with rfl | hmem2
      · exact ⟨"", ", " ++ joinComma (s2 :: rest2),
          by simp [joinComma, String.append_assoc]⟩
      · rcases ih hmem2 with ⟨pre, post, heq⟩
        refine ⟨s ++ ", " ++ pre, post, ?_⟩
        simp [joinComma, heq, String.append_assoc]

/-- If the comma-joined enumeration is the empty string, every joined
provider key is itself empty. -/
theorem joinComma_empty_all (l : List String) (h : joinComma l = "") :
    ∀ n ∈ l, n = "" := by
  cases l with
  | nil => intro n hn; cases hn
  | cons s rest =>
    cases rest with
    | nil =>
      intro n hn
      rcases List.mem_singleton.mp hn with rfl
      simpa [joinComma] using h
    | cons s2 r2 =>
      exfalso
      have hlen := congrArg String.length h
      rw [show joinComma (s :: s2 :: r2) = s ++ ", " ++ joinComma (s2 :: r2)
        from rfl] at hlen
      have h2 : (", ").length = 2 := rfl
      have h0 : ("" : String).length = 0 := rfl
      rw [String.length_append, String.length_append, h2, h0] at hlen
      omega

/-- A key that is absent from the key list is never found by `lookup`. -/
theorem lookup_eq_none_of_not_mem {α : Type} (reg : List (String × α))
    (p : String) (h : p ∉ reg.map Prod.fst) : reg.lookup p = none := by
  induction reg with
  | nil => rfl
  | cons e rest ih =>
    simp only [List.map_cons, List.mem_cons] at h
    push_neg at h
    have hne : (p == e.1) = false := beq_false_of_ne fun hp => h.1 hp
    simp [List.lookup, hne, ih h.2]

end Core

/-- Outcome of the consumer handler promise inside the consume callback of
an adapter: it resolved, or it rejected (threw) without itself having
settled the delivery. -/
inductive HandlerOutcome where
  | resolved
  | threw
  deriving DecidableEq, Repr

namespace Rabbit

/-- groupQueue helper from src/packages/rabbitmq/src/index.ts:
`oq.queue.<base>.<group>`. -/
def groupQueue (base group : String) : String :=
  "oq.queue." ++ base ++ "." ++ group

/-- exchangeName helper: `oq.exchange.<base>`. -/
def exchangeName (base : String) : String :=
  "oq.exchange." ++ base

/-- AMQP channel operations the adapter issues against the backend. -/
inductive AmqpOp where
  | assertExchangeOp (name : String)
  | assertQueueOp (name : String)
  | bindQueueOp (queue exchange : String)
  | consumeOp (queue : String)
  deriving DecidableEq, Repr

/-- Control flow of `RabbitBroker.subscribe(topic, handler, groupId, opts)`
up to the installation of the consumer: the sequence of channel operations
issued, or a thrown error.  Translated from the source, which performs no
validation of `groupId` before calling into the channel. -/
def subscribeOps (topic groupId : String) (ensure : Bool) :
    Except String (List AmqpOp) :=
  let q := groupQueue topic groupId
  let ops :=
    if ensure then
      [AmqpOp.assertExchangeOp (exchangeName topic), AmqpOp.assertQueueOp q,
        AmqpOp.bindQueueOp q (exchangeName topic)]
    else []
  Except.ok (ops ++ [AmqpOp.consumeOp q])

/-- BrokerMessage id built by the consume callback:
`raw.properties.messageId || raw.fields.deliveryTag.toString()` — the
delivery tag stands in when the message id is absent or empty (falsy). -/
def envelopeId (messageId : Option String) (deliveryTag : Nat) : String :=
  match messageId with
  | some s => if s = "" then toString deliveryTag else s
  | none => toString deliveryTag

/-- Acknowledgement operations on the channel. -/
inductive ChannelAck where
  | ackOp (tag : Nat)
  | nackOp (tag : Nat) (allUpTo requeue : Bool)
  deriving DecidableEq, Repr

/-- What the consume callback of `RabbitBroker.subscribe` does after the
handler settles: nothing on resolution; on a throw the catch branch calls
`brokerMsg.nack(true)`, which is `channel.nack(raw, false, true)`. -/
def onHandlerSettled (tag : Nat) : HandlerOutcome → List ChannelAck
  | HandlerOutcome.resolved => []
  | HandlerOutcome.threw => [ChannelAck.nackOp tag false true]

/-- Backend effect of `channel.assertExchange` with type fanout and
durable true (amqplib semantics): creates the exchange when absent;
asserting an existing exchange with identical parameters succeeds and
leaves it untouched.  Returns the exchanges afterwards and whether a new
exchange was created. -/
def assertExchange (exchanges : List String) (name : String) :
    List String × Bool :=
  if name ∈ exchanges then (exchanges, false)
  else (exchanges ++ [name], true)

/-- Provisioning performed by `RabbitBroker.publish(topic, msg, opts)`:
the publish path asserts the fan-out exchange of the topic. -/
def publishProvision (exchanges : List String) (topic : String) :
    List String × Bool :=
  assertExchange exchanges (exchangeName topic)

end Rabbit

namespace Zmq

/-- Left-to-right fold of the hashTopic loop body over the characters. -/
def hashAux : Nat → List Char → Nat
  | h, [] => h
  | h, c :: cs => hashAux ((h * 31 + c.toNat) % 65536) cs

/-- hashTopic from src/packages/zeromq/src/index.ts:
`h = (h * 31 + t.charCodeAt(i)) & 0xffff` per character, then `h % 200`.
The topics considered live in the basic multilingual plane, where
`charCodeAt` agrees with the code point. -/
def hashTopic (t : String) : Nat :=
  hashAux 0 t.data % 200

/-- endpointOf helper: `base:port+hashTopic(topic)` plus `.group` when a
truthy (non-empty) group is supplied. -/
def endpointOf (base : String) (port : Nat) (topic : String)
    (group : Option String) : String :=
  base ++ ":" ++ toString (port + hashTopic topic) ++
    (match group with
     | some g => if g = "" then "" else "." ++ g
     | none => "")

/-- Endpoint the publisher PUSH socket of `ZmqBroker.publish` binds for a
topic, with the default config (bindBase falling back to
`tcp://127.0.0.1`, basePort to 5000); no group is passed. -/
def pubEndpoint (topic : String) : String :=
  endpointOf "tcp://127.0.0.1" 5000 topic none

/-- Endpoint the PULL socket of `ZmqBroker.subscribe` connects for a topic
and group, with the default config. -/
def subEndpoint (topic group : String) : String :=
  endpointOf "tcp://127.0.0.1" 5000 topic (some group)

/-- Delivery semantics of the zeromq PUSH/PULL pair the adapter builds: a
PULL socket receives the published messages only when connected to the
endpoint the PUSH socket bound; on any other endpoint it receives nothing.
(Even on a shared endpoint PUSH fair-queues each message to one connected
PULL socket rather than copying it per group, so this model is generous to
the adapter.) -/
def groupObserved (published : List String) (topic group : String) :
    List String :=
  if subEndpoint topic group = pubEndpoint topic then published else []

/-- Validation at the top of `ZmqBroker.subscribe`: a falsy (empty) group
throws before any socket is created. -/
def subscribeCheck (groupId : String) : Except String Unit :=
  if groupId = "" then Except.error "`groupId` is mandatory" else Except.ok ()

/-- Effects the zeromq pull loop performs after the handler settles: the
catch branch only logs (`console.error`); `brokerMsg.nack` is a no-op
(zeromq has no redelivery mechanism) and is not called. -/
inductive LoopEffect where
  | logError
  | nackRequeue
  deriving DecidableEq, Repr

/-- Translated from the pull loop of `ZmqBroker.subscribe`. -/
def onHandlerSettled : HandlerOutcome → List LoopEffect
  | HandlerOutcome.resolved => []
  | HandlerOutcome.threw => [LoopEffect.logError]

end Zmq

namespace NatsA

/-- Character replacement of toStreamName: the regex class `[\.\*-]`
(dot, star, dash) replaced by an underscore. -/
def sanitizeChar (c : Char) : Char :=
  if c = '.' ∨ c = '*' ∨ c = '-' then '_' else c

/-- toStreamName from src/packages/nats/src/index.ts:
`topic.replace(/[\.\*-]/g, '_').toUpperCase()`, e.g. `orders.created` to
`ORDERS_CREATED` (ASCII topics, where `toUpperCase` agrees with
`Char.toUpper`). -/
def toStreamName (topic : String) : String :=
  String.mk ((topic.data.map sanitizeChar).map Char.toUpper)

/-- Provisioning block of `NatsBroker.publish` (and `subscribe`) under
ensure=true: `jsm.streams.info(stream)` resolves exactly when the stream
exists — the catch branch is then skipped — and rejects when it does not,
in which case `jsm.streams.add` creates the stream.  Returns the streams
afterwards and whether `add` ran. -/
def ensureStream (streams : List String) (topic : String) :
    List String × Bool :=
  let s := toStreamName topic
  if s ∈ streams then (streams, false) else (streams ++ [s], true)

/-- A message persisted in a JetStream stream: the publisher-supplied
message id (`msgID: msg.id` at publish) and the stream sequence assigned
by the server on append.  A redelivery presents the same stored message. -/
structure StoredMsg where
  msgID : String
  streamSeq : Nat
  deriving DecidableEq, Repr

/-- One delivery of a stored message to a consumer; `deliverySeq` is fresh
per (re)delivery. -/
structure Delivery where
  msg : StoredMsg
  deliverySeq : Nat
  deriving DecidableEq, Repr

/-- Envelope id constructed by `NatsBroker.handleJsMsg`:
`jm.info.streamSequence.toString()`. -/
def envelopeId (d : Delivery) : String :=
  toString d.msg.streamSeq

end NatsA

/-- A resource tracked by a broker instance (worker, queue handle, socket,
channel, connection), together with whether its `close()` resolves. -/
structure Closeable where
  name : String
  closeOk : Bool
  deriving DecidableEq, Repr

/-- Sequential close loop `for (const r of rs) await r.close()` as written in
`BullBroker.close` and `ZmqBroker.close` (and, unrolled, in
`RabbitBroker.close`): each close is awaited in order; the first rejected
close makes the whole call reject, and no later resource is attempted.
Returns the names on which close was attempted and the name whose close
failed, when any. -/
def closeSeq : List Closeable → List String × Option String
  | [] => ([], none)
  | r :: rest =>
      if r.closeOk then
        ((closeSeq rest).1.cons r.name, (closeSeq rest).2)
      else ([r.name], some r.name)

/-- When every close resolves, the sequential loop attempts every resource
in order and reports no error. -/
theorem closeSeq_all_ok (rs : List Closeable)
    (h : ∀ r ∈ rs, r.closeOk = true) :
    closeSeq rs = (rs.map Closeable.name, none) := by
  induction rs with
  | nil => rfl
  | cons r rest ih =>
    have hr : r.closeOk = true := h r (List.mem_cons_self r rest)
    have hrest : ∀ x ∈ rest, x.closeOk = true :=
      fun x hx => h x (List.mem_cons_of_mem r hx)
    simp [closeSeq, hr, ih hrest]

/-- The first failing close aborts the loop: exactly the resources up to
and including the failing one are attempted, the rest never are, and the
single propagated error is that of the failing resource. -/
theorem closeSeq_first_failure (pre : List Closeable) (r : Closeable)
    (post : List Closeable) (hpre : ∀ x ∈ pre, x.closeOk = true)
    (hr : r.closeOk = false) :
    closeSeq (pre ++ r :: post) =
      (pre.map Closeable.name ++ [r.name], some r.name) := by
  induction pre with
  | nil => simp [closeSeq, hr]
  | cons x rest ih =>
    have hx : x.closeOk = true := hpre x (List.mem_cons_self x rest)
    have hrest : ∀ y ∈ rest, y.closeOk = true :=
      fun y hy => hpre y (List.mem_cons_of_mem x hy)
    simp [closeSeq, hx, ih hrest]

namespace Zmq

/-- Teardown-relevant state of a ZmqBroker instance: the per-topic PUSH
sockets cached in the `pushSockets` field, and the PULL sockets created by
prior subscribe calls.  The source stores a PULL socket in no field of the
broker — it stays a local of its subscribe call, and its receive loop runs
until that socket is closed. -/
structure BrokerState where
  pushSockets : List Closeable
  pullSockets : List Closeable
  deriving DecidableEq, Repr

/-- Teardown `ZmqBroker.close`:
`for (const s of this.pushSockets.values()) await s.close()`.  Only the
cached PUSH sockets are visited; the PULL sockets, and with them the
subscribe loops, are not reachable from the method and stay untouched. -/
def close (st : BrokerState) : List String × Option String :=
  closeSeq st.pushSockets

end Zmq

namespace Bull

/-- queueName helper from src/packages/bullmq/src/index.ts:
`oq:<topic>:<group>`. -/
def queueName (topic group : String) : String :=
  "oq:" ++ topic ++ ":" ++ group

/-- Message of the error thrown when the publish precondition fails. -/
def publishErr : String :=
  "BullMQ adapter requires ensure=true and createOptions.groupNames = string[]"

/-- Loop body of `BullBroker.publish`: for each listed group,
`getOrCreateQueue` (which instantiates and caches a Queue handle the first
time its name is seen) followed by `q.add(topic, msg, {priority, jobId:
msg.id})`.  Returns the queue-handle cache afterwards and the jobs added
as (queue name, job id) in order. -/
def addJobs (topic msgId : String) :
    List String → List String → List String × List (String × String)
  | cache, [] => (cache, [])
  | cache, g :: gs =>
      let name := queueName topic g
      let cache2 := if name ∈ cache then cache else cache ++ [name]
      ((addJobs topic msgId cache2 gs).1,
        (name, msgId) :: (addJobs topic msgId cache2 gs).2)

/-- Publish entry `BullBroker.publish(topic, msg, opts)`: throws (before touching any
queue) unless `opts.ensure` is truthy and `opts.createOptions.groupNames`
is a non-empty array (`if (!opts.ensure || !groups?.length) throw`);
otherwise runs the per-group add loop.  An `Except.error` result carries
no cache and no jobs: nothing was created or enqueued. -/
def publish (cache : List String) (ensure : Bool)
    (groupNames : Option (List String)) (topic msgId : String) :
    Except String (List String × List (String × String)) :=
  if ensure = false ∨ groupNames.getD [] = [] then Except.error publishErr
  else Except.ok (addJobs topic msgId cache (groupNames.getD []))

/-- Teardown `BullBroker.close`: the worker loop runs first, then the queue loop,
each resource sequentially awaited. -/
def close (workers queues : List Closeable) : List String × Option String :=
  closeSeq (workers ++ queues)

/-- The jobs added by the publish loop are exactly one per listed group,
each into the queue of that group, carrying the published message id. -/
theorem addJobs_jobs (topic msgId : String) :
    ∀ (gs cache : List String),
      (addJobs topic msgId cache gs).2 =
        gs.map (fun g => (queueName topic g, msgId)) := by
  intro gs
  induction gs with
  | nil => intro cache; rfl
  | cons g rest ih =>
    intro cache
    simp [addJobs, ih]

end Bull

end Omniqueue

/-- Claim C7 counterexample: teardown neither attempts every resource nor
aggregates failures.  First defect: `BullBroker.close` with a first worker
whose close rejects never attempts the second worker nor the queue, and
the single error propagates unaggregated.  Second defect: `ZmqBroker.close`
on a broker holding one cached PUSH socket and one PULL socket created by
a prior subscribe call closes only the PUSH socket — the PULL socket, and
with it the consumer loop it feeds, is never attempted at all. -/
theorem C7_counterexample :
    (Omniqueue.Bull.close [⟨"worker1", false⟩, ⟨"worker2", true⟩]
        [⟨"queue1", true⟩] = (["worker1"], some "worker1") ∧
      "worker2" ∉ (Omniqueue.Bull.close [⟨"worker1", false⟩, ⟨"worker2", true⟩]
          [⟨"queue1", true⟩]).1 ∧
      "queue1" ∉ (Omniqueue.Bull.close [⟨"worker1", false⟩, ⟨"worker2", true⟩]
          [⟨"queue1", true⟩]).1) ∧
    (Omniqueue.Zmq.close ⟨[⟨"push.orders", true⟩],
        [⟨"pull.orders.billing", true⟩]⟩ = (["push.orders"], none) ∧
      "pull.orders.billing" ∉
        (Omniqueue.Zmq.close ⟨[⟨"push.orders", true⟩],
          [⟨"pull.orders.billing", true⟩]⟩).1) := by
  decide

/-- Claim C7 (amended): `close()` sequentially awaits the release of the
resources the broker instance tracks — bullmq every worker then every
queue handle, rabbitmq the channel then the connection, but zeromq only
the cached per-topic PUSH sockets: the PULL sockets and the subscribe
loops they feed are untracked and never attempted — and releases all
tracked resources when each individual close succeeds; the loop is not
best-effort: the first failing close propagates immediately, the
remaining resources are not attempted, and failures are not aggregated. -/
theorem C7_close_sequential :
    (∀ ws qs : List Omniqueue.Closeable,
      (∀ r ∈ ws ++ qs, r.closeOk = true) →
      Omniqueue.Bull.close ws qs =
        ((ws ++ qs).map Omniqueue.Closeable.name, none)) ∧
    (∀ (pre : List Omniqueue.Closeable) (r : Omniqueue.Closeable)
        (post : List Omniqueue.Closeable),
      (∀ x ∈ pre, x.closeOk = true) → r.closeOk = false →
      Omniqueue.closeSeq (pre ++ r :: post) =
        (pre.map Omniqueue.Closeable.name ++ [r.name], some r.name)) ∧
    (∀ (push pulls : List Omniqueue.Closeable),
      (∀ r ∈ push, r.closeOk = true) →
      (∀ p ∈ pulls, p.name ∉ push.map Omniqueue.Closeable.name) →
      Omniqueue.Zmq.close ⟨push, pulls⟩ =
        (push.map Omniqueue.Closeable.name, none) ∧
      ∀ p ∈ pulls, p.name ∉ (Omniqueue.Zmq.close ⟨push, pulls⟩).1) := by
  refine ⟨fun ws qs h => Omniqueue.closeSeq_all_ok (ws ++ qs) h,
    fun pre r post hpre hr =>
      Omniqueue.closeSeq_first_failure pre r post hpre hr,
    fun push pulls hok hdisj => ?_⟩
  have hz : Omniqueue.Zmq.close ⟨push, pulls⟩ =
      (push.map Omniqueue.Closeable.name, none) :=
    Omniqueue.closeSeq_all_ok push hok
  exact ⟨hz, fun p hp => by rw [hz]; exact hdisj p hp⟩

/-- Witness for C7 (amended): a bullmq run where every close succeeds, a
run aborted by the failing middle resource, and a zeromq teardown that
visits the cached PUSH socket but never the PULL socket. -/
theorem C7_close_sequential_witness :
    Omniqueue.Bull.close [⟨"w1", true⟩] [⟨"q1", true⟩] = (["w1", "q1"], none) ∧
    Omniqueue.closeSeq ([⟨"w1", true⟩] ++ ⟨"w2", false⟩ :: [⟨"q1", true⟩]) =
      (["w1", "w2"], some "w2") ∧
    (Omniqueue.Zmq.close ⟨[⟨"p1", true⟩], [⟨"u1", true⟩]⟩ = (["p1"], none) ∧
      ∀ p ∈ ([⟨"u1", true⟩] : List Omniqueue.Closeable),
        p.name ∉ (Omniqueue.Zmq.close ⟨[⟨"p1", true⟩], [⟨"u1", true⟩]⟩).1) :=
  ⟨C7_close_sequential.1 [⟨"w1", true⟩] [⟨"q1", true⟩] (by decide),
    C7_close_sequential.2.1 [⟨"w1", true⟩] ⟨"w2", false⟩ [⟨"q1", true⟩]
      (by decide) rfl,
    C7_close_sequential.2.2 [⟨"p1", true⟩] [⟨"u1", true⟩]
      (by decide) (by decide)⟩

/-- Claim C10: `BullBroker.publish(topic, msg, opts)` throws before
creating any queue or enqueuing any job unless `opts.ensure` is true and
`opts.createOptions.groupNames` is a non-empty array; when that
precondition holds it adds exactly one job per listed group, into the
queue of that group, carrying the published message id. -/
theorem C10_bull_publish (cache : List String) (ensure : Bool)
    (groupNames : Option (List String)) (topic msgId : String) :
    ((ensure = false ∨ groupNames.getD [] = []) →
      Omniqueue.Bull.publish cache ensure groupNames topic msgId =
        Except.error Omniqueue.Bull.publishErr) ∧
    (∀ gs, groupNames = some gs → gs ≠ [] → ensure = true →
      ∃ cacheF, Omniqueue.Bull.publish cache ensure groupNames topic msgId =
        Except.ok (cacheF,
          gs.map (fun g => (Omniqueue.Bull.queueName topic g, msgId)))) := by
  constructor
  · intro h
    rw [Omniqueue.Bull.publish, if_pos h]
  · intro gs hgs hne hens
    subst hgs
    subst hens
    rw [Omniqueue.Bull.publish, if_neg (by simp [hne])]
    refine ⟨(Omniqueue.Bull.addJobs topic msgId cache gs).1, ?_⟩
    rw [show (some gs).getD [] = gs from rfl,
      ← Omniqueue.Bull.addJobs_jobs topic msgId gs cache]

/-- Witness for C10: a rejected call without the precondition and an
accepted call fanning one job out to each of two listed groups. -/
theorem C10_bull_publish_witness :
    Omniqueue.Bull.publish [] false (some ["billing"]) "orders" "m1" =
      Except.error Omniqueue.Bull.publishErr ∧
    (∃ cacheF, Omniqueue.Bull.publish [] true (some ["billing", "shipping"])
        "orders" "m1" =
      Except.ok (cacheF, List.map
        (fun g => (Omniqueue.Bull.queueName "orders" g, "m1"))
        ["billing", "shipping"])) :=
  ⟨(C10_bull_publish [] false (some ["billing"]) "orders" "m1").1 (Or.inl rfl),
    (C10_bull_publish [] true (some ["billing", "shipping"]) "orders" "m1").2
      ["billing", "shipping"] rfl (by decide) rfl⟩

/-- Claim C3 counterexample: distinct topics alias to the same backend
resource.  The nats adapter maps both `a.b` and `a-b` to stream `A_B`;
the zeromq adapter maps both `a` and `aZ` to the same endpoint, its hash
spreading all topics over only 200 ports. -/
theorem C3_counterexample :
    (("a.b" : String) ≠ "a-b" ∧
      Omniqueue.NatsA.toStreamName "a.b" = Omniqueue.NatsA.toStreamName "a-b") ∧
    (("a" : String) ≠ "aZ" ∧
      Omniqueue.Zmq.pubEndpoint "a" = Omniqueue.Zmq.pubEndpoint "aZ") := by
  decide

/-- Claim C3 (amended): the topic-to-resource mappings are deterministic
functions of the topic, but they are not collision-resistant: both the
nats stream naming and the zeromq endpoint hashing map distinct topics to
the same backend resource. -/
theorem C3_topic_mapping_not_injective :
    (∃ t1 t2 : String, t1 ≠ t2 ∧
      Omniqueue.NatsA.toStreamName t1 = Omniqueue.NatsA.toStreamName t2) ∧
    (∃ u1 u2 : String, u1 ≠ u2 ∧
      Omniqueue.Zmq.pubEndpoint u1 = Omniqueue.Zmq.pubEndpoint u2) :=
  ⟨⟨"a.b", "a-b", by decide, by decide⟩, ⟨"a", "aZ", by decide, by decide⟩⟩

/-- Claim C4: calling `publish(topic, msg, {ensure:true})` twice against an
as-yet-nonexistent topic creates the backing resource exactly once — the
second call raises no error, performs no further creation and leaves the
resource state untouched.  Shown for the nats adapter (stream info/add)
and the rabbitmq adapter (fan-out exchange assertion). -/
theorem C4_publish_ensure_idempotent (streams exchanges : List String)
    (topic : String)
    (hn : Omniqueue.NatsA.toStreamName topic ∉ streams)
    (hr : Omniqueue.Rabbit.exchangeName topic ∉ exchanges) :
    (Omniqueue.NatsA.ensureStream streams topic).2 = true ∧
    Omniqueue.NatsA.toStreamName topic ∈
      (Omniqueue.NatsA.ensureStream streams topic).1 ∧
    Omniqueue.NatsA.ensureStream
        (Omniqueue.NatsA.ensureStream streams topic).1 topic =
      ((Omniqueue.NatsA.ensureStream streams topic).1, false) ∧
    (Omniqueue.Rabbit.publishProvision exchanges topic).2 = true ∧
    Omniqueue.Rabbit.publishProvision
        (Omniqueue.Rabbit.publishProvision exchanges topic).1 topic =
      ((Omniqueue.Rabbit.publishProvision exchanges topic).1, false) := by
  refine ⟨?_, ?_, ?_, ?_, ?_⟩
  · simp [Omniqueue.NatsA.ensureStream, hn]
  · simp [Omniqueue.NatsA.ensureStream, hn]
  · simp [Omniqueue.NatsA.ensureStream, hn]
  · simp [Omniqueue.Rabbit.publishProvision, Omniqueue.Rabbit.assertExchange, hr]
  · simp [Omniqueue.Rabbit.publishProvision, Omniqueue.Rabbit.assertExchange, hr]

/-- Witness for C4 at a concrete topic over empty backend state. -/
theorem C4_publish_ensure_idempotent_witness :
    (Omniqueue.NatsA.toStreamName "orders" ∉ ([] : List String) ∧
      Omniqueue.Rabbit.exchangeName "orders" ∉ ([] : List String)) ∧
    ((Omniqueue.NatsA.ensureStream [] "orders").2 = true ∧
      Omniqueue.NatsA.toStreamName "orders" ∈
        (Omniqueue.NatsA.ensureStream [] "orders").1 ∧
      Omniqueue.NatsA.ensureStream
          (Omniqueue.NatsA.ensureStream [] "orders").1 "orders" =
        ((Omniqueue.NatsA.ensureStream [] "orders").1, false) ∧
      (Omniqueue.Rabbit.publishProvision [] "orders").2 = true ∧
      Omniqueue.Rabbit.publishProvision
          (Omniqueue.Rabbit.publishProvision [] "orders").1 "orders" =
        ((Omniqueue.Rabbit.publishProvision [] "orders").1, false)) :=
  ⟨⟨by decide, by decide⟩,
    C4_publish_ensure_idempotent [] [] "orders" (by decide) (by decide)⟩

/-- Claim C6 counterexample: the nats adapter presents
`jm.info.streamSequence.toString()` as the envelope id, not the id
published with the message — a message published with id `m1` and stored
at stream sequence 7 is delivered with envelope id `7`. -/
theorem C6_counterexample :
    Omniqueue.NatsA.envelopeId ⟨⟨"m1", 7⟩, 1⟩ = "7" ∧ ("7" : String) ≠ "m1" := by
  decide

/-- Claim C6 (amended): the envelope id is stable across redeliveries of
the same logical message — the rabbitmq adapter presents the published id
when a non-empty one was supplied, for every delivery tag; the nats
adapter presents the stream sequence, identical for every redelivery of
the same stored message but not equal to the published id. -/
theorem C6_envelope_id_stable (d1 d2 : Omniqueue.NatsA.Delivery)
    (h : d1.msg = d2.msg) (mid : String) (tag1 tag2 : Nat) (hm : mid ≠ "") :
    Omniqueue.NatsA.envelopeId d1 = Omniqueue.NatsA.envelopeId d2 ∧
    Omniqueue.Rabbit.envelopeId (some mid) tag1 = mid ∧
    Omniqueue.Rabbit.envelopeId (some mid) tag1 =
      Omniqueue.Rabbit.envelopeId (some mid) tag2 := by
  refine ⟨?_, ?_, ?_⟩
  · rw [Omniqueue.NatsA.envelopeId, Omniqueue.NatsA.envelopeId, h]
  · simp [Omniqueue.Rabbit.envelopeId, hm]
  · simp [Omniqueue.Rabbit.envelopeId, hm]

/-- Witness for C6 (amended): two deliveries of the stored message
(`m1`, sequence 7) and two rabbitmq deliveries of message id `m1`. -/
theorem C6_envelope_id_stable_witness :
    ((⟨⟨"m1", 7⟩, 1⟩ : Omniqueue.NatsA.Delivery).msg =
        (⟨⟨"m1", 7⟩, 2⟩ : Omniqueue.NatsA.Delivery).msg ∧
      ("m1" : String) ≠ "") ∧
    (Omniqueue.NatsA.envelopeId ⟨⟨"m1", 7⟩, 1⟩ =
        Omniqueue.NatsA.envelopeId ⟨⟨"m1", 7⟩, 2⟩ ∧
      Omniqueue.Rabbit.envelopeId (some "m1") 3 = "m1" ∧
      Omniqueue.Rabbit.envelopeId (some "m1") 3 =
        Omniqueue.Rabbit.envelopeId (some "m1") 4) :=
  ⟨⟨rfl, by decide⟩,
    C6_envelope_id_stable ⟨⟨"m1", 7⟩, 1⟩ ⟨⟨"m1", 7⟩, 2⟩ rfl "m1" 3 4 (by decide)⟩

/-- Claim C1: for every adapter, two distinct groups subscribed to a topic
each independently observe all published messages.  Refuted by the zeromq
adapter: its publisher binds the PUSH socket at the bare topic endpoint
while the PULL socket of each group connects to the endpoint suffixed with
the group name, so a subscribed group observes none of the published
messages.
This theorem evaluates the code at the failing input: topic `orders`,
groups `billing` and `shipping`, two published messages. -/
theorem C1_zmq_fanout_broken :
    Omniqueue.Zmq.subEndpoint "orders" "billing" ≠
      Omniqueue.Zmq.pubEndpoint "orders" ∧
    Omniqueue.Zmq.subEndpoint "orders" "shipping" ≠
      Omniqueue.Zmq.pubEndpoint "orders" ∧
    Omniqueue.Zmq.groupObserved ["m1", "m2"] "orders" "billing" = [] ∧
    Omniqueue.Zmq.groupObserved ["m1", "m2"] "orders" "shipping" = [] := by
  decide

/-- Claim C2: `subscribe`/`receive` with an empty or missing group must
fail synchronously with GroupRequired before any backend I/O.  Refuted by
`RabbitBroker.subscribe`, which performs no group validation: with the
empty group it succeeds and issues assertExchange/assertQueue/bindQueue/
consume against the malformed queue name `oq.queue.orders.`.  This theorem
evaluates the code at the failing input (topic `orders`, empty group,
ensure=true); for contrast, the check in the zeromq adapter does throw. -/
theorem C2_rabbit_subscribe_empty_group :
    Omniqueue.Rabbit.subscribeOps "orders" "" true =
      Except.ok [Omniqueue.Rabbit.AmqpOp.assertExchangeOp "oq.exchange.orders",
        Omniqueue.Rabbit.AmqpOp.assertQueueOp "oq.queue.orders.",
        Omniqueue.Rabbit.AmqpOp.bindQueueOp "oq.queue.orders."
          "oq.exchange.orders",
        Omniqueue.Rabbit.AmqpOp.consumeOp "oq.queue.orders."] ∧
    Omniqueue.Zmq.subscribeCheck "" =
      Except.error "`groupId` is mandatory" := by
  constructor
  · rfl
  · rfl

/-- Claim C5 counterexample: in the zeromq adapter a handler that throws
without having called ack or nack is only logged — the loop performs no
`nack(requeue=true)` (and the nack of the adapter is a no-op), refuting
the claim as stated for every adapter. -/
theorem C5_counterexample :
    Omniqueue.Zmq.onHandlerSettled Omniqueue.HandlerOutcome.threw =
      [Omniqueue.Zmq.LoopEffect.logError] ∧
    Omniqueue.Zmq.LoopEffect.nackRequeue ∉
      Omniqueue.Zmq.onHandlerSettled Omniqueue.HandlerOutcome.threw := by
  decide

/-- Claim C5 (amended): in the rabbitmq adapter a handler that throws is
nacked on its behalf with requeue=true (`channel.nack(raw, false, true)`)
and a handler failure is never turned into an ack; the zeromq adapter,
which has no redelivery mechanism, instead logs the failure and drops the
delivery. -/
theorem C5_handler_failure_policy (tag : Nat) :
    Omniqueue.Rabbit.onHandlerSettled tag Omniqueue.HandlerOutcome.threw =
      [Omniqueue.Rabbit.ChannelAck.nackOp tag false true] ∧
    (∀ t o, Omniqueue.Rabbit.ChannelAck.ackOp t ∉
      Omniqueue.Rabbit.onHandlerSettled tag o) ∧
    Omniqueue.Zmq.onHandlerSettled Omniqueue.HandlerOutcome.threw =
      [Omniqueue.Zmq.LoopEffect.logError] := by
  refine ⟨rfl, ?_, rfl⟩
  intro t o
  cases o <;> simp [Omniqueue.Rabbit.onHandlerSettled]

/-- Witness for C5 (amended) at concrete delivery tags. -/
theorem C5_handler_failure_policy_witness :
    Omniqueue.Rabbit.onHandlerSettled 9 Omniqueue.HandlerOutcome.threw =
      [Omniqueue.Rabbit.ChannelAck.nackOp 9 false true] ∧
    Omniqueue.Rabbit.ChannelAck.ackOp 3 ∉
      Omniqueue.Rabbit.onHandlerSettled 9 Omniqueue.HandlerOutcome.threw ∧
    Omniqueue.Zmq.onHandlerSettled Omniqueue.HandlerOutcome.threw =
      [Omniqueue.Zmq.LoopEffect.logError] :=
  ⟨(C5_handler_failure_policy 9).1,
    (C5_handler_failure_policy 9).2.1 3 Omniqueue.HandlerOutcome.threw,
    (C5_handler_failure_policy 9).2.2⟩

/-- Claim C8: for every provider name P not currently registered,
`create(P, cfg)` fails with a ProviderNotRegistered error whose text
enumerates the currently known provider names, and the registry itself is
left unchanged by the failed call. -/
theorem C8_create_unregistered {α : Type} (reg : List (String × α)) (p : String)
    (h : p ∉ reg.map Prod.fst) :
    (Omniqueue.Core.createStep reg p).1 = reg ∧
    (Omniqueue.Core.createStep reg p).2 =
      Except.error (Omniqueue.Core.notRegisteredMsg p (reg.map Prod.fst)) ∧
    ∀ n ∈ reg.map Prod.fst, ∃ pre post,
      Omniqueue.Core.notRegisteredMsg p (reg.map Prod.fst) = pre ++ n ++ post := by
  have hlk := Omniqueue.Core.lookup_eq_none_of_not_mem reg p h
  refine ⟨?_, ?_, ?_⟩
  · simp [Omniqueue.Core.createStep, hlk]
  · simp [Omniqueue.Core.createStep, hlk]
  · intro n hn
    by_cases hj : Omniqueue.Core.joinComma (reg.map Prod.fst) = ""
    · have hn0 : n = "" := Omniqueue.Core.joinComma_empty_all _ hj n hn
      subst hn0
      exact ⟨Omniqueue.Core.notRegisteredMsg p (reg.map Prod.fst), "", by simp⟩
    · rcases Omniqueue.Core.joinComma_occurs n (reg.map Prod.fst) hn with
        ⟨pre, post, heq⟩
      refine ⟨("Broker \"" ++ p ++ "\" not registered. Known: [") ++ pre,
        post ++ "]", ?_⟩
      have hne : ¬ (pre ++ (n ++ post) = "") := by
        rw [← String.append_assoc, ← heq]; exact hj
      simp [Omniqueue.Core.notRegisteredMsg, heq, hne, String.append_assoc]

/-- Witness for C8 at a concrete registry and provider name. -/
theorem C8_create_unregistered_witness :
    "zeromq" ∉ ([("rabbitmq", 0), ("kafka", 1)].map Prod.fst) ∧
    ((Omniqueue.Core.createStep [("rabbitmq", 0), ("kafka", 1)] "zeromq").1 =
        [("rabbitmq", 0), ("kafka", 1)] ∧
      (Omniqueue.Core.createStep [("rabbitmq", 0), ("kafka", 1)] "zeromq").2 =
        Except.error (Omniqueue.Core.notRegisteredMsg "zeromq"
          ([("rabbitmq", 0), ("kafka", 1)].map Prod.fst)) ∧
      ∀ n ∈ [("rabbitmq", 0), ("kafka", 1)].map Prod.fst, ∃ pre post,
        Omniqueue.Core.notRegisteredMsg "zeromq"
          ([("rabbitmq", 0), ("kafka", 1)].map Prod.fst) = pre ++ n ++ post) :=
  ⟨by decide, C8_create_unregistered [("rabbitmq", 0), ("kafka", 1)] "zeromq"
    (by decide)⟩

/-- Claim C9: for every provider name P already present in the registry,
`register(P, factory)` fails with a DuplicateRegistration error naming the
conflicting provider P, and leaves the existing registration for P and
every other registry entry unchanged — it never silently overwrites. -/
theorem C9_register_duplicate {α : Type} (reg : List (String × α)) (p : String)
    (f : α) (h : p ∈ reg.map Prod.fst) :
    Omniqueue.Core.registerStep reg p f =
      (reg, Except.error (Omniqueue.Core.duplicateMsg p)) ∧
    ∃ pre post, Omniqueue.Core.duplicateMsg p = pre ++ p ++ post := by
  constructor
  · have hc : Omniqueue.Core.hasProvider reg p = true :=
      List.elem_eq_true_of_mem h
    simp [Omniqueue.Core.registerStep, hc]
  · exact ⟨"Broker \"", "\" already registered", by
      simp [Omniqueue.Core.duplicateMsg, String.append_assoc]⟩

/-- Witness for C9 at a concrete registry and provider name. -/
theorem C9_register_duplicate_witness :
    "rabbitmq" ∈ ([("rabbitmq", 0), ("kafka", 1)].map Prod.fst) ∧
    (Omniqueue.Core.registerStep [("rabbitmq", 0), ("kafka", 1)] "rabbitmq" 2 =
      ([("rabbitmq", 0), ("kafka", 1)],
        Except.error (Omniqueue.Core.duplicateMsg "rabbitmq")) ∧
    ∃ pre post, Omniqueue.Core.duplicateMsg "rabbitmq" = pre ++ "rabbitmq" ++ post) :=
  ⟨by decide, C9_register_duplicate [("rabbitmq", 0), ("kafka", 1)] "rabbitmq" 2
    (by decide)⟩
